import Mathlib

/-!
Verification of the tick-level kinematics of `simulator/gui/layers.py`:
the mobile differential-drive rig (`MoblileRobotLayer`) and the linear
actuator rig (`LinearActuatorLayer`).

The embedding follows the Python source closely.  Positions are rationals,
servo/velocity values are integers.  Python's `int(x / 10)` on an integer
numerator truncates toward zero, which is `Int.tdiv`.

Parts of the repository referenced by `layers.py` but not present in the
source tree (the `robot_drawings` module: `predict_movement`, the drawing's
`move`, `change_angle`, and the geometry constants) are modelled from the
spec; each such definition carries a doc comment saying so.
-/

namespace Layers

/-- Python `int((s - 90) / 10)`: float division truncated toward zero.
For the integer servo values in range this is exactly truncated integer
division of `s - 90` by `10`. Mirrors lines 190-191 and 349 of layers.py. -/
def norm_servo (s : Int) : Int := Int.tdiv (s - 90) 10

/-- Pressed-state of the WASD keys (the `move_WASD` map). -/
structure WASD where
  w : Bool
  a : Bool
  s : Bool
  d : Bool
deriving DecidableEq, Repr

/-- State of the mobile rig that `MoblileRobotLayer.move` reads and writes:
the drawing's position and angle, and the two phase flags initialised at
lines 117-118. -/
structure MobileState where
  pos : ℚ × ℚ
  angle : ℚ
  is_moving : Bool
  is_rotating : Bool
deriving DecidableEq, Repr

/-- Modelled from the spec: `MobileRobotDrawing.predict_movement` is outside
the given source tree; the spec says the speculative next position is
obtained by "projecting `v` along current heading".  `dir` stands for the
unit vector of the current heading (trigonometry is not representable on
`ℚ`, so the vector is passed in, and every theorem quantifies over it). -/
def predict_movement (pos : ℚ × ℚ) (v : ℚ) (dir : ℚ × ℚ) : ℚ × ℚ :=
  (pos.1 + v * dir.1, pos.2 + v * dir.2)

/-- Geometry constants of the mobile rig's drawing (`width`, `height`,
`drawing_width`, `drawing_height`), set up by `robot_drawings` outside the
given source tree; kept abstract. -/
structure MobileGeom where
  width : ℚ
  height : ℚ
  drawing_width : ℚ
  drawing_height : ℚ
deriving DecidableEq, Repr

/-- Per-tick input of `MoblileRobotLayer.move`: the `using_keys` flag, the
WASD map, the two servo values read by `__move_code`, and the heading unit
vector used by the (spec-modelled) movement projection. -/
structure MobileInput where
  using_keys : Bool
  keys : WASD
  servo_left : Int
  servo_right : Int
  dir : ℚ × ℚ
deriving DecidableEq, Repr

/-- `MoblileRobotLayer.__move_keys` (lines 153-180): resolves `(v, da)` from
the WASD map and updates the two phase flags.  In Python both `if w` and
`if s` run in order, so `s` wins when both are pressed, and `d` wins over
`a`; the second block tests the just-updated `is_moving`. -/
def mobile_move_keys (st : MobileState) (k : WASD) : (Int × Int) × MobileState :=
  let vm : Int × Bool :=
    if !st.is_rotating then
      let v : Int := if k.s then 10 else if k.w then -10 else 0
      (v, v != 0)
    else (0, st.is_moving)
  let dar : Int × Bool :=
    if !vm.2 then
      let da : Int := if k.d then -5 else if k.a then 5 else 0
      (da, da != 0)
    else (0, st.is_rotating)
  ((vm.1, dar.1), { st with is_moving := vm.2, is_rotating := dar.2 })

/-- `MoblileRobotLayer.__move_code` (lines 182-206): resolves `(v, da)` from
the two servo values.  The two rotation `if`s run in order (the second may
overwrite the first), and the straight-line branch sets `v = -v_i` whenever
`v_i ≠ 0`, the magnitudes agree and no rotation was commanded. -/
def mobile_move_code (sL sR : Int) : Int × Int :=
  let v_i := norm_servo sL
  let v_r := norm_servo sR
  let dar : Int × Bool :=
    if v_i ≥ 0 ∧ v_r ≥ 0 ∧ (v_i ≠ 0 ∨ v_r ≠ 0) then (-5, true) else (0, false)
  let dar : Int × Bool :=
    if v_i ≤ 0 ∧ v_r ≤ 0 ∧ (v_i ≠ 0 ∨ v_r ≠ 0) then (5, true) else dar
  let v : Int :=
    if v_i.natAbs = v_r.natAbs ∧ dar.2 = false then
      if v_i > 0 then -v_i else if v_i < 0 then -v_i else 0
    else 0
  (v, dar.1)

/-- The obstacle is constructed at line 115 as `Obstacle(700, 3000, 600, 450)`:
x = 700, y = 3000, width = 600, height = 450. -/
def obstacle_x : ℚ := 700
def obstacle_y : ℚ := 3000
def obstacle_w : ℚ := 600
def obstacle_h : ℚ := 450

/-- `MoblileRobotLayer.__check_obstacle_collision` (lines 257-271): the
margin-inclusive axis-aligned overlap test of a speculative position
`(x, y)` against the obstacle rectangle. -/
def check_obstacle_collision (g : MobileGeom) (x y : ℚ) : Bool :=
  decide (x + g.width / 2 ≥ obstacle_x ∧
          y + g.height / 2 ≥ obstacle_y ∧
          x ≤ obstacle_x + (obstacle_w + g.width / 2) ∧
          y ≤ obstacle_y + (obstacle_h + g.height / 2))

/-- Input resolution step of `MoblileRobotLayer.move` (lines 126-129):
keys mode calls `__move_keys` (which updates the flags), code mode calls
`__move_code` (which leaves the state alone). -/
def mobile_resolve (st : MobileState) (i : MobileInput) : (Int × Int) × MobileState :=
  if i.using_keys then mobile_move_keys st i.keys
  else (mobile_move_code i.servo_left i.servo_right, st)

/-- The speculative next position `future_p` of line 131. -/
def mobile_future (st : MobileState) (i : MobileInput) : ℚ × ℚ :=
  predict_movement (mobile_resolve st i).2.pos ((mobile_resolve st i).1.1 : ℚ) i.dir

/-- The rejection guard of lines 132-141: when the resolved velocity is zero,
the speculative position reaches or crosses a world boundary (half extents
accounted for), or it overlaps the obstacle, the velocity is forced to 0 and
`is_moving` cleared.  Returns the committed `(v, is_moving)`. -/
def mobile_guard (g : MobileGeom) (st : MobileState) (i : MobileInput) : Int × Bool :=
  let v0 := (mobile_resolve st i).1.1
  let fp := mobile_future st i
  if v0 = 0 ∨ fp.1 ≤ g.width / 2 ∨ fp.1 ≥ g.drawing_width - g.width / 2 ∨
     fp.2 ≤ g.height / 2 ∨ fp.2 ≥ g.drawing_height - g.height / 2 ∨
     check_obstacle_collision g fp.1 fp.2 = true
  then (0, false)
  else (v0, (mobile_resolve st i).2.is_moving)

/-- One tick of `MoblileRobotLayer.move` (lines 120-151): resolve the input,
run the guard, then translate unless rotating and rotate unless moving
(lines 144-147).  The drawing's `move`/`change_angle` are outside the given
source; per the spec they apply the projected translation and add the angle
delta. -/
def mobile_move (g : MobileGeom) (st : MobileState) (i : MobileInput) : MobileState :=
  let st1 := (mobile_resolve st i).2
  let da := (mobile_resolve st i).1.2
  let vg := mobile_guard g st i
  let st2 : MobileState := { st1 with is_moving := vg.2 }
  let pos' := if st2.is_rotating then st2.pos else predict_movement st2.pos (vg.1 : ℚ) i.dir
  let ang' := if st2.is_moving then st2.angle else st2.angle + (da : ℚ)
  { st2 with pos := pos', angle := ang' }

/-- The state constructed by `MoblileRobotLayer.__init__` (lines 117-118):
both phase flags start false; the initial pose comes from the drawing and is
kept abstract. -/
def mobile_init (p : ℚ × ℚ) (a : ℚ) : MobileState :=
  { pos := p, angle := a, is_moving := false, is_rotating := false }

/-- Running a sequence of ticks. -/
def mobile_run (g : MobileGeom) (st : MobileState) (l : List MobileInput) : MobileState :=
  l.foldl (mobile_move g) st

/-- `MoblileRobotLayer.__detect_obstacle` (lines 273-289), as a function of
the distance `d` computed by the obstacle's `calculate_distance`: the result
is the triple (detected flag, `sound.value`, `sound.dist`) written to the
rig's sensor record. -/
def detect_obstacle (d : ℚ) : Bool × Nat × ℚ :=
  if d ≠ -1 then (true, 1, d) else (false, 0, -1)

/-- Pressed-state of the `a`/`d` keys used by the actuator layer. -/
structure ActKeys where
  a : Bool
  d : Bool
deriving DecidableEq, Repr

/-- Pressed-state of the four direction keys (the `move_dir` map). -/
structure DirKeys where
  up : Bool
  down : Bool
  left : Bool
  right : Bool
deriving DecidableEq, Repr

/-- State of the linear actuator rig that `LinearActuatorLayer.move` reads
and writes: the block position, the two limit-switch button values, the
drawing's `hit` display flag and the joystick record. -/
structure ActuatorState where
  x : Int
  button_left : Nat
  button_right : Nat
  hit : Bool
  joy_dx : Int
  joy_dy : Int
deriving DecidableEq, Repr

/-- `LinearActuatorLayer.__hit_left` (lines 383-395). -/
def hit_left (has_hit : Bool) (st : ActuatorState) : ActuatorState :=
  if has_hit then { st with hit := true, button_left := 1 }
  else { st with hit := false, button_left := 0 }

/-- `LinearActuatorLayer.__hit_right` (lines 397-409). -/
def hit_right (has_hit : Bool) (st : ActuatorState) : ActuatorState :=
  if has_hit then { st with hit := true, button_right := 1 }
  else { st with hit := false, button_right := 0 }

/-- `LinearActuatorLayer.__move_keys` (lines 325-341): `a` moves left by 10
unless the block is at or left of 508, `d` (only when `a` is not pressed:
`elif`) moves right by 10 unless at or right of 1912; the touched side's
button is set iff the step was blocked. -/
def act_move_keys (k : ActKeys) (st : ActuatorState) : Int × ActuatorState :=
  if k.a then
    let v : Int := if st.x > 508 then -10 else 0
    (v, hit_left (v == 0) st)
  else if k.d then
    let v : Int := if st.x < 1912 then 10 else 0
    (v, hit_right (v == 0) st)
  else (0, st)

/-- `LinearActuatorLayer.__move_code` (lines 343-358): the normalized servo
value is used directly as the velocity, gated by the two position limits;
the commanded side's button is set iff the step was blocked.  The two `if`s
on the sign of `v_s` are mutually exclusive. -/
def act_move_code (servo : Int) (st : ActuatorState) : Int × ActuatorState :=
  let v_s := norm_servo servo
  let r1 : Int × ActuatorState :=
    if v_s > 0 then
      let v : Int := if st.x < 1912 then v_s else 0
      (v, hit_right (v == 0) st)
    else (0, st)
  if v_s < 0 then
    let v : Int := if st.x > 508 then v_s else 0
    (v, hit_left (v == 0) r1.2)
  else r1

/-- `LinearActuatorLayer.__parse_joystick` (lines 360-381): each axis
defaults to 500 and snaps to an extreme when the key is pressed; `down`
overwrites `up` and `right` overwrites `left` because the assignments run
in order. -/
def parse_joystick (m : DirKeys) (st : ActuatorState) : ActuatorState :=
  let dx : Int := if m.right then 1023 else if m.left then 0 else 500
  let dy : Int := if m.down then 1023 else if m.up then 0 else 500
  { st with joy_dx := dx, joy_dy := dy }

/-- One tick of `LinearActuatorLayer.move` (lines 309-323): reset the
drawing's `hit` flag, resolve `v` from keys or (after parsing the joystick)
from the servo, then commit the position.  The drawing's `move` is outside
the given source; per the spec it commits `position += v`. -/
def act_move (st : ActuatorState) (using_keys : Bool) (k : ActKeys)
    (dir : DirKeys) (servo : Int) : ActuatorState :=
  let st0 : ActuatorState := { st with hit := false }
  let vst :=
    if using_keys then act_move_keys k st0
    else act_move_code servo (parse_joystick dir st0)
  { vst.2 with x := vst.2.x + vst.1 }

end Layers

namespace Layers

/-- Helper: every integer servo value in the band `81 ≤ s ≤ 99` normalizes
to 0, because truncated division of `s - 90 ∈ [-9, 9]` by 10 is 0. -/
theorem norm_servo_deadband (s : Int) (h1 : 81 ≤ s) (h2 : s ≤ 99) :
    norm_servo s = 0 := by
  unfold norm_servo
  interval_cases s <;> decide

/-- Claim C1, counterexample: at servo pair (100, 80) the normalized values
are (1, -1) — equal absolute value, mismatched signs, non-zero — yet
`__move_code` resolves `v = -1`, `da = 0`: motion, not the claimed
`v = 0 ∧ da = 0`. -/
theorem C1_counterexample :
    mobile_move_code 100 80 = (-1, 0) ∧
    decide (mobile_move_code 100 80 = (0, 0)) = false := by decide

/-- Claim C1, amended: when the two normalized servo values have equal
absolute value, mismatched signs and are non-zero, `__move_code` commands
straight-line motion `v = -v_i` (the negated left value) with `da = 0`;
no motion arises only when the non-zero magnitudes differ. -/
theorem C1_amended_theorem (sL sR : Int)
    (hopp : norm_servo sR = -norm_servo sL) (hnz : norm_servo sL ≠ 0) :
    mobile_move_code sL sR = (-norm_servo sL, 0) := by
  simp only [mobile_move_code, hopp]
  split_ifs <;> simp_all [Prod.mk.injEq, Int.natAbs_neg] <;> omega

/-- Claim C1, witness for the amended theorem at servo pair (100, 80). -/
theorem C1_witness :
    norm_servo 80 = -norm_servo 100 ∧ norm_servo 100 ≠ 0 ∧
    mobile_move_code 100 80 = (-norm_servo 100, 0) :=
  ⟨by decide, by decide, C1_amended_theorem 100 80 (by decide) (by decide)⟩

/-- Claim C8: when both normalized servo values are non-negative and at
least one is non-zero, `__move_code` commands the clockwise rotation
`da = -5` with `v = 0`; when both are non-positive and at least one is
non-zero, it commands the counter-clockwise rotation `da = 5` with
`v = 0`. -/
theorem C8_theorem (sL sR : Int) :
    (0 ≤ norm_servo sL → 0 ≤ norm_servo sR →
      (norm_servo sL ≠ 0 ∨ norm_servo sR ≠ 0) →
      mobile_move_code sL sR = (0, -5)) ∧
    (norm_servo sL ≤ 0 → norm_servo sR ≤ 0 →
      (norm_servo sL ≠ 0 ∨ norm_servo sR ≠ 0) →
      mobile_move_code sL sR = (0, 5)) := by
  constructor <;> intro hL hR hnz <;>
    · simp only [mobile_move_code]
      split_ifs <;> simp_all [Prod.mk.injEq, Int.natAbs_neg] <;> omega

/-- Claim C8, witness at servo pairs (100, 100) and (80, 80). -/
theorem C8_witness :
    mobile_move_code 100 100 = (0, -5) ∧ mobile_move_code 80 80 = (0, 5) :=
  ⟨(C8_theorem 100 100).1 (by decide) (by decide) (by decide),
   (C8_theorem 80 80).2 (by decide) (by decide) (by decide)⟩

/-- Claim C9: `__detect_obstacle` treats -1 as the no-detection sentinel:
a computed distance of -1 yields (detected = false, value = 0, dist = -1),
and any other distance `d` yields (detected = true, value = 1, dist = d). -/
theorem C9_theorem (d : ℚ) :
    (d = -1 → detect_obstacle d = (false, 0, -1)) ∧
    (d ≠ -1 → detect_obstacle d = (true, 1, d)) := by
  constructor <;> intro h <;> simp [detect_obstacle, h]

/-- Claim C9, witness at distances -1 and 5. -/
theorem C9_witness :
    detect_obstacle (-1) = (false, 0, -1) ∧ detect_obstacle 5 = (true, 1, 5) :=
  ⟨(C9_theorem (-1)).1 rfl, (C9_theorem 5).2 (by norm_num)⟩

/-- Claim C10: every servo value in the band 81..99 normalizes to 0, so a
mobile rig with both servos in the band resolves `(v, da) = (0, 0)` and a
servo-driven actuator tick leaves the whole actuator state (in particular
both limit-switch flags) unchanged with `v = 0`. -/
theorem C10_theorem (s sL sR : Int) (st : ActuatorState)
    (hs1 : 81 ≤ s) (hs2 : s ≤ 99) (hL1 : 81 ≤ sL) (hL2 : sL ≤ 99)
    (hR1 : 81 ≤ sR) (hR2 : sR ≤ 99) :
    norm_servo s = 0 ∧ mobile_move_code sL sR = (0, 0) ∧
    act_move_code s st = (0, st) := by
  refine ⟨norm_servo_deadband s hs1 hs2, ?_, ?_⟩
  · simp [mobile_move_code, norm_servo_deadband sL hL1 hL2,
      norm_servo_deadband sR hR1 hR2]
  · simp [act_move_code, norm_servo_deadband s hs1 hs2]

/-- Claim C10, witness at servo values 81 and 99 and a concrete actuator
state. -/
theorem C10_witness :
    norm_servo 81 = 0 ∧ mobile_move_code 81 99 = (0, 0) ∧
    act_move_code 81 ⟨600, 0, 1, false, 500, 500⟩ =
      (0, ⟨600, 0, 1, false, 500, 500⟩) :=
  C10_theorem 81 81 99 ⟨600, 0, 1, false, 500, 500⟩ (by decide) (by decide)
    (by decide) (by decide) (by decide) (by decide)

/-- Claim C7, counterexample: a servo-driven actuator tick at servo value
110 (normalized value 2) from position 508 resolves `v = 2`, whose absolute
value is neither 0 nor 10. -/
theorem C7_counterexample :
    (act_move_code 110 ⟨508, 0, 0, false, 500, 500⟩).1 = 2 ∧
    decide ((act_move_code 110 ⟨508, 0, 0, false, 500, 500⟩).1 = 0 ∨
      (act_move_code 110 ⟨508, 0, 0, false, 500, 500⟩).1.natAbs = 10) = false := by
  decide

/-- Claim C7, amended: a key-driven actuator tick resolves `v` in
{-10, 0, 10}, but a servo-driven tick resolves `v` equal to 0 or to the raw
normalized servo value `int((servo-90)/10)`, whose magnitude varies with the
servo value instead of being fixed at 10. -/
theorem C7_amended_theorem (k : ActKeys) (servo : Int) (st st' : ActuatorState) :
    ((act_move_keys k st).1 = 0 ∨ (act_move_keys k st).1 = -10 ∨
      (act_move_keys k st).1 = 10) ∧
    ((act_move_code servo st').1 = 0 ∨
      (act_move_code servo st').1 = norm_servo servo) := by
  constructor
  · simp only [act_move_keys]
    split_ifs <;> simp
  · simp only [act_move_code]
    split_ifs <;> simp

/-- Claim C5: from a state at the left limit 508 with the flags clear, a
key tick commanding leftward motion resolves `v = 0`, sets
`button_left.value = 1` and leaves the position at 508; a key tick
commanding rightward motion is applied (position becomes 518) and leaves
`button_left.value` at 0. -/
theorem C5_theorem (st : ActuatorState) (dk : DirKeys) (sv : Int)
    (hx : st.x = 508) (hbl : st.button_left = 0) :
    (act_move_keys ⟨true, false⟩ { st with hit := false }).1 = 0 ∧
    (act_move st true ⟨true, false⟩ dk sv).x = 508 ∧
    (act_move st true ⟨true, false⟩ dk sv).button_left = 1 ∧
    (act_move st true ⟨false, true⟩ dk sv).x = 518 ∧
    (act_move st true ⟨false, true⟩ dk sv).button_left = 0 := by
  simp [act_move, act_move_keys, hit_left, hit_right, hx, hbl]

/-- Claim C5, witness at the concrete initial-flag state positioned at
508. -/
theorem C5_witness :
    (act_move_keys ⟨true, false⟩ ⟨508, 0, 0, false, 500, 500⟩).1 = 0 ∧
    (act_move ⟨508, 0, 0, false, 500, 500⟩ true ⟨true, false⟩
        ⟨false, false, false, false⟩ 90).x = 508 ∧
    (act_move ⟨508, 0, 0, false, 500, 500⟩ true ⟨true, false⟩
        ⟨false, false, false, false⟩ 90).button_left = 1 ∧
    (act_move ⟨508, 0, 0, false, 500, 500⟩ true ⟨false, true⟩
        ⟨false, false, false, false⟩ 90).x = 518 ∧
    (act_move ⟨508, 0, 0, false, 500, 500⟩ true ⟨false, true⟩
        ⟨false, false, false, false⟩ 90).button_left = 0 :=
  C5_theorem ⟨508, 0, 0, false, 500, 500⟩ ⟨false, false, false, false⟩ 90
    rfl rfl

/-- Claim C6, counterexample: after a tick at the left limit sets
`button_left.value = 1`, a following tick that presses no key commands
`v = 0` and contacts neither limit, yet `button_left.value` is still 1 at
the end of that tick — the flags are not cleared as the claim states. -/
theorem C6_counterexample :
    (act_move_keys ⟨false, false⟩
      { act_move ⟨508, 0, 0, false, 500, 500⟩ true ⟨true, false⟩
          ⟨false, false, false, false⟩ 90 with hit := false }).1 = 0 ∧
    (act_move (act_move ⟨508, 0, 0, false, 500, 500⟩ true ⟨true, false⟩
        ⟨false, false, false, false⟩ 90)
      true ⟨false, false⟩ ⟨false, false, false, false⟩ 90).button_left = 1 ∧
    decide ((act_move (act_move ⟨508, 0, 0, false, 500, 500⟩ true ⟨true, false⟩
        ⟨false, false, false, false⟩ 90)
      true ⟨false, false⟩ ⟨false, false, false, false⟩ 90).button_left = 0)
      = false := by
  decide

/-- Claim C6, amended: a tick writes at most one of the two limit-switch
flags — the side being commanded — so the other side's flag keeps its
previous value; a tick that commands nothing (no key pressed, or a zero
normalized servo value) leaves both flags unchanged rather than clearing
them. -/
theorem C6_amended_theorem (st : ActuatorState) (uk : Bool) (k : ActKeys)
    (dk : DirKeys) (servo : Int) :
    ((act_move st uk k dk servo).button_left = st.button_left ∨
      (act_move st uk k dk servo).button_right = st.button_right) ∧
    ((if uk = true then k.a = false ∧ k.d = false else norm_servo servo = 0) →
      (act_move st uk k dk servo).button_left = st.button_left ∧
      (act_move st uk k dk servo).button_right = st.button_right) := by
  cases uk
  · refine ⟨?_, fun h => ?_⟩
    · simp only [act_move, act_move_code, parse_joystick, hit_left, hit_right,
        Bool.false_eq_true, if_false]
      split_ifs <;> simp_all <;> omega
    · simp only [Bool.false_eq_true, if_false] at h
      simp [act_move, act_move_code, parse_joystick, h]
  · refine ⟨?_, fun h => ?_⟩
    · simp only [act_move, act_move_keys, hit_left, hit_right, if_true]
      split_ifs <;> simp_all
    · simp only [if_true] at h
      simp [act_move, act_move_keys, h.1, h.2]

/-- Claim C6, witness for the amended theorem: a no-key tick from a state
with `button_left.value = 1` leaves both flags unchanged. -/
theorem C6_witness :
    (act_move ⟨600, 1, 0, false, 500, 500⟩ true ⟨false, false⟩
        ⟨false, false, false, false⟩ 90).button_left = 1 ∧
    (act_move ⟨600, 1, 0, false, 500, 500⟩ true ⟨false, false⟩
        ⟨false, false, false, false⟩ 90).button_right = 0 :=
  (C6_amended_theorem ⟨600, 1, 0, false, 500, 500⟩ true ⟨false, false⟩
      ⟨false, false, false, false⟩ 90).2 (by decide)

/-- Helper: resolving the input never changes the position. -/
theorem mobile_resolve_pos (st : MobileState) (i : MobileInput) :
    (mobile_resolve st i).2.pos = st.pos := by
  unfold mobile_resolve mobile_move_keys
  split_ifs <;> rfl

/-- Helper: the committed `is_moving` flag is the guard's second component. -/
theorem mobile_move_is_moving (g : MobileGeom) (st : MobileState)
    (i : MobileInput) :
    (mobile_move g st i).is_moving = (mobile_guard g st i).2 := rfl

/-- Helper: the tick never changes `is_rotating` after input resolution. -/
theorem mobile_move_is_rotating (g : MobileGeom) (st : MobileState)
    (i : MobileInput) :
    (mobile_move g st i).is_rotating = (mobile_resolve st i).2.is_rotating := rfl

/-- Helper: projecting a zero velocity leaves the position unchanged. -/
theorem predict_movement_zero (p : ℚ × ℚ) (dir : ℚ × ℚ) :
    predict_movement p ((0 : Int) : ℚ) dir = p := by
  simp [predict_movement]

/-- Helper: the committed position is the old position when rotating, and
otherwise the projection of the guard's committed velocity. -/
theorem mobile_move_pos (g : MobileGeom) (st : MobileState) (i : MobileInput) :
    (mobile_move g st i).pos =
      if (mobile_resolve st i).2.is_rotating = true then st.pos
      else predict_movement st.pos ((mobile_guard g st i).1 : ℚ) i.dir := by
  simp only [mobile_move]
  rw [mobile_resolve_pos]

/-- Helper: either the guard rejects the step (committing velocity 0 and a
cleared moving flag), or it commits the resolved velocity and the
speculative position lies strictly inside the world box. -/
theorem mobile_guard_eq (g : MobileGeom) (st : MobileState) (i : MobileInput) :
    mobile_guard g st i = (0, false) ∨
    (mobile_guard g st i =
        ((mobile_resolve st i).1.1, (mobile_resolve st i).2.is_moving) ∧
      g.width / 2 < (mobile_future st i).1 ∧
      (mobile_future st i).1 < g.drawing_width - g.width / 2 ∧
      g.height / 2 < (mobile_future st i).2 ∧
      (mobile_future st i).2 < g.drawing_height - g.height / 2) := by
  simp only [mobile_guard]
  split_ifs with h
  · exact Or.inl rfl
  · push_neg at h
    exact Or.inr ⟨rfl, h.2.1, h.2.2.1, h.2.2.2.1, h.2.2.2.2.1⟩

/-- Claim C2: if the committed position before a tick lies within
`[halfW, drawingWidth-halfW] × [halfH, drawingHeight-halfH]`, it still lies
within that box after the tick: translations whose speculative endpoint
reaches or crosses a boundary are rejected by forcing `v = 0` before the
pose is committed. -/
theorem C2_theorem (g : MobileGeom) (st : MobileState) (i : MobileInput)
    (hx1 : g.width / 2 ≤ st.pos.1)
    (hx2 : st.pos.1 ≤ g.drawing_width - g.width / 2)
    (hy1 : g.height / 2 ≤ st.pos.2)
    (hy2 : st.pos.2 ≤ g.drawing_height - g.height / 2) :
    g.width / 2 ≤ (mobile_move g st i).pos.1 ∧
    (mobile_move g st i).pos.1 ≤ g.drawing_width - g.width / 2 ∧
    g.height / 2 ≤ (mobile_move g st i).pos.2 ∧
    (mobile_move g st i).pos.2 ≤ g.drawing_height - g.height / 2 := by
  rw [mobile_move_pos]
  split_ifs with hrot
  · exact ⟨hx1, hx2, hy1, hy2⟩
  · rcases mobile_guard_eq g st i with h | h
    · have h1 : (mobile_guard g st i).1 = 0 := by rw [h]
      rw [h1, predict_movement_zero]
      exact ⟨hx1, hx2, hy1, hy2⟩
    · have h1 : (mobile_guard g st i).1 = (mobile_resolve st i).1.1 := by
        rw [h.1]
      have h2 : predict_movement st.pos ((mobile_resolve st i).1.1 : ℚ) i.dir =
          mobile_future st i := by
        unfold mobile_future
        rw [mobile_resolve_pos]
      rw [h1, h2]
      exact ⟨le_of_lt h.2.1, le_of_lt h.2.2.1, le_of_lt h.2.2.2.1,
        le_of_lt h.2.2.2.2⟩

/-- Claim C2, witness at a concrete geometry, interior state and key
input. -/
theorem C2_witness :
    (80 : ℚ) / 2 ≤ (mobile_move ⟨80, 80, 2000, 2000⟩ (mobile_init (500, 500) 0)
        ⟨true, ⟨false, false, false, false⟩, 90, 90, (1, 0)⟩).pos.1 ∧
    (mobile_move ⟨80, 80, 2000, 2000⟩ (mobile_init (500, 500) 0)
        ⟨true, ⟨false, false, false, false⟩, 90, 90, (1, 0)⟩).pos.1 ≤
      2000 - 80 / 2 ∧
    (80 : ℚ) / 2 ≤ (mobile_move ⟨80, 80, 2000, 2000⟩ (mobile_init (500, 500) 0)
        ⟨true, ⟨false, false, false, false⟩, 90, 90, (1, 0)⟩).pos.2 ∧
    (mobile_move ⟨80, 80, 2000, 2000⟩ (mobile_init (500, 500) 0)
        ⟨true, ⟨false, false, false, false⟩, 90, 90, (1, 0)⟩).pos.2 ≤
      2000 - 80 / 2 :=
  C2_theorem ⟨80, 80, 2000, 2000⟩ (mobile_init (500, 500) 0)
    ⟨true, ⟨false, false, false, false⟩, 90, 90, (1, 0)⟩
    (by norm_num [mobile_init]) (by norm_num [mobile_init])
    (by norm_num [mobile_init]) (by norm_num [mobile_init])

/-- Helper: `__move_keys` preserves mutual exclusion of the phase flags. -/
theorem mobile_move_keys_flags (st : MobileState) (k : WASD)
    (h : (st.is_moving && st.is_rotating) = false) :
    ((mobile_move_keys st k).2.is_moving &&
      (mobile_move_keys st k).2.is_rotating) = false := by
  cases hm : st.is_moving <;> cases hr : st.is_rotating <;>
    cases hw : k.w <;> cases hs : k.s <;> cases ha : k.a <;> cases hd : k.d <;>
    simp_all [mobile_move_keys]

/-- Helper: input resolution preserves mutual exclusion of the phase
flags. -/
theorem mobile_resolve_flags (st : MobileState) (i : MobileInput)
    (h : (st.is_moving && st.is_rotating) = false) :
    ((mobile_resolve st i).2.is_moving &&
      (mobile_resolve st i).2.is_rotating) = false := by
  unfold mobile_resolve
  split_ifs
  · exact mobile_move_keys_flags st i.keys h
  · exact h

/-- Helper: one tick preserves mutual exclusion of the phase flags. -/
theorem mobile_move_flags (g : MobileGeom) (st : MobileState) (i : MobileInput)
    (h : (st.is_moving && st.is_rotating) = false) :
    ((mobile_move g st i).is_moving && (mobile_move g st i).is_rotating)
      = false := by
  rw [mobile_move_is_moving, mobile_move_is_rotating]
  simp only [mobile_guard]
  split_ifs
  · rfl
  · exact mobile_resolve_flags st i h

/-- Claim C3: from the constructed state (both flags false), no sequence of
`move` ticks — any key/servo inputs — ever reaches a state with `is_moving`
and `is_rotating` both true. -/
theorem C3_theorem (g : MobileGeom) (p : ℚ × ℚ) (a : ℚ)
    (l : List MobileInput) :
    ((mobile_run g (mobile_init p a) l).is_moving &&
      (mobile_run g (mobile_init p a) l).is_rotating) = false := by
  have key : ∀ (l : List MobileInput) (st : MobileState),
      (st.is_moving && st.is_rotating) = false →
      ((mobile_run g st l).is_moving && (mobile_run g st l).is_rotating)
        = false := by
    intro l
    induction l with
    | nil => intro st h; exact h
    | cons x xs ih =>
        intro st h
        rw [mobile_run, List.foldl_cons]
        exact ih (mobile_move g st x) (mobile_move_flags g st x h)
  exact key l (mobile_init p a) rfl

/-- Claim C4: with the obstacle constructed at (700, 3000, 600, 450), if
the speculative next position overlaps the obstacle's margin-inclusive
rectangle, the guard forces the committed velocity to 0 and clears
`is_moving` before the pose is committed, so the position is unchanged. -/
theorem C4_theorem (g : MobileGeom) (st : MobileState) (i : MobileInput)
    (h : check_obstacle_collision g (mobile_future st i).1
        (mobile_future st i).2 = true) :
    mobile_guard g st i = (0, false) ∧
    (mobile_move g st i).is_moving = false ∧
    (mobile_move g st i).pos = st.pos := by
  have hg : mobile_guard g st i = (0, false) := by
    simp only [mobile_guard]
    rw [if_pos (Or.inr (Or.inr (Or.inr (Or.inr (Or.inr h)))))]
  refine ⟨hg, ?_, ?_⟩
  · rw [mobile_move_is_moving, hg]
  · rw [mobile_move_pos]
    split_ifs
    · rfl
    · have h1 : (mobile_guard g st i).1 = 0 := by rw [hg]
      rw [h1, predict_movement_zero]

/-- Claim C4, witness: a rig just left of the obstacle, commanded forward
along the x axis, speculatively overlaps the expanded obstacle rectangle
and is stopped in place. -/
theorem C4_witness :
    mobile_guard ⟨80, 80, 4000, 4000⟩ (mobile_init (680, 3000) 0)
        ⟨true, ⟨false, false, true, false⟩, 90, 90, (1, 0)⟩ = (0, false) ∧
    (mobile_move ⟨80, 80, 4000, 4000⟩ (mobile_init (680, 3000) 0)
        ⟨true, ⟨false, false, true, false⟩, 90, 90, (1, 0)⟩).is_moving
      = false ∧
    (mobile_move ⟨80, 80, 4000, 4000⟩ (mobile_init (680, 3000) 0)
        ⟨true, ⟨false, false, true, false⟩, 90, 90, (1, 0)⟩).pos
      = (680, 3000) :=
  C4_theorem ⟨80, 80, 4000, 4000⟩ (mobile_init (680, 3000) 0)
    ⟨true, ⟨false, false, true, false⟩, 90, 90, (1, 0)⟩
    (by norm_num [check_obstacle_collision, mobile_future, mobile_resolve,
      mobile_move_keys, mobile_init, predict_movement, obstacle_x, obstacle_y,
      obstacle_w, obstacle_h])

end Layers
